import Mathlib

/-!
Verification of the sirpi-gcp-backend deployment pipeline against its
natural-language specification.

Each section shallowly embeds one part of the Python source:
* `LogHub`      — src/api/deployment_logs.py (per-operation log queues, SSE stream)
* `Broker`      — the `_get_credentials` caching shared by
                  S3StateManager / AWSDeploymentService / AWSDockerBuildService
* `StateBackend`— src/services/deployment/s3_state_manager.py and
                  gcs_state_manager.py
* `TfOutputs`   — AWSDeploymentService._get_terraform_outputs / terraform_apply
* `Regexes`     — the two regular expressions used by src/api/aws_deployments.py
* `Handlers`    — the plan / apply / destroy endpoint bodies
* `Workflow`    — SirpiOrchestrator.run_workflow and execute
                  (src/agentcore/orchestrator.py)

External collaborators (STS, GCS/S3 cloud state, the LLM analysis and
generation calls, the database) are modelled as explicit environment values,
exactly at the granularity at which the Python code observes them.
-/

namespace Sirpi

/-! ### Log Stream Hub — src/api/deployment_logs.py

The module-level dict `_active_deployments` maps a deployment id to an
`asyncio.Queue`.  We model the dict as an association list with unique keys
and a queue as the list of messages it currently holds (FIFO: `put` appends
at the tail, `get` takes from the head). -/

abbrev LogRegistry := List (String × List String)

/-- The dedicated end-of-stream marker enqueued by `send_completion`. -/
def streamCompleteSentinel : String := "__STREAM_COMPLETE__"

/-- Queue lookup, i.e. `_active_deployments.get(deployment_id)`. -/
def lookupQueue (r : LogRegistry) (id : String) : Option (List String) :=
  (r.find? (fun p => p.1 = id)).map Prod.snd

/-- `register_deployment`: create a fresh queue only when the id is absent. -/
def register_deployment (id : String) (r : LogRegistry) : LogRegistry :=
  if (lookupQueue r id).isSome then r else (id, []) :: r

/-- `unregister_deployment`: `del _active_deployments[id]` when present. -/
def unregister_deployment (id : String) (r : LogRegistry) : LogRegistry :=
  if (lookupQueue r id).isSome then r.filter (fun p => p.1 ≠ id) else r

/-- `send_log`: enqueue `msg` when the id is registered, otherwise do nothing. -/
def send_log (id : String) (msg : String) (r : LogRegistry) : LogRegistry :=
  if (lookupQueue r id).isSome then
    r.map (fun p => if p.1 = id then (p.1, p.2 ++ [msg]) else p)
  else r

/-- `send_completion`: enqueue the sentinel (same registration guard). -/
def send_completion (id : String) (r : LogRegistry) : LogRegistry :=
  send_log id streamCompleteSentinel r

/-- A sequence of `send_log` calls for the same id. -/
def publishAll (id : String) (lines : List String) (r : LogRegistry) : LogRegistry :=
  lines.foldl (fun acc msg => send_log id msg acc) r

/-- What the consumer loop of `log_stream_generator` observes on one
iteration: a dequeued message, a 1-second poll timeout, or an exception
raised inside the loop body.  A trace ending without a terminator models a
client that disconnects at that point. -/
inductive StreamItem
  | line (msg : String)
  | pollTimeout
  | streamError (e : String)
deriving DecidableEq, Repr

/-- The SSE frames emitted by `log_stream_generator`. -/
inductive SseEvent
  | notFound
  | connected
  | logLine (msg : String)
  | keepalive
  | complete
  | timeout
  | errorEv (e : String)
deriving DecidableEq, Repr

/-- The `while True` loop of `log_stream_generator` (lines 80-111):
second argument is `timeout_count`. -/
def streamLoop : List StreamItem → Nat → List SseEvent
  | [], _ => []
  | StreamItem.line msg :: rest, _ =>
      if msg = streamCompleteSentinel then [SseEvent.complete]
      else SseEvent.logLine msg :: streamLoop rest 0
  | StreamItem.pollTimeout :: rest, tc =>
      SseEvent.keepalive ::
        (if tc + 1 > 600 then [SseEvent.timeout] else streamLoop rest (tc + 1))
  | StreamItem.streamError e :: _, _ => [SseEvent.errorEv e]

/-- `log_stream_generator`: emits SSE events and — via its `finally` block —
always unregisters the queue, on every exit path.  The registry is the one
in force when the generator starts; `items` is the sequence of observations
the consumer loop makes. -/
def log_stream_generator (r : LogRegistry) (id : String) (items : List StreamItem) :
    List SseEvent × LogRegistry :=
  if (lookupQueue r id).isSome then
    (SseEvent.connected :: streamLoop items 0, unregister_deployment id r)
  else
    ([SseEvent.notFound], unregister_deployment id r)

/-- Keys of the registry are pairwise distinct (the Python object is a dict). -/
def keysNodup (r : LogRegistry) : Prop := (r.map Prod.fst).Nodup

/-! ### Cross-account credential broker

`S3StateManager._get_credentials`, `AWSDeploymentService._get_credentials`
and `AWSDockerBuildService._get_credentials` are textually identical up to
the `RoleSessionName` constant and the log text: all three set
`self._credentials = None` in `__init__`, return the cached value when it is
set, and otherwise perform one `sts.assume_role` call, cache its
`Credentials`, and return them; a `ClientError` is re-raised without
caching.  We embed that shared body once, with the session name as a field,
and count the assume-role calls made by the process. -/

structure AwsCredentials where
  accessKeyId : String
  secretAccessKey : String
  sessionToken : String
deriving DecidableEq, Repr

structure CredentialBroker where
  roleArn : String
  externalId : String
  roleSessionName : String
  /-- `self._credentials` -/
  credentials : Option AwsCredentials
deriving DecidableEq, Repr

/-- The STS collaborator: the outcome of the n-th assume-role call performed
by the process (a fresh short-lived bundle, or a `ClientError`). -/
structure StsEnv where
  assumeRole : Nat → Except String AwsCredentials

/-- `__init__`: the cache starts empty. -/
def brokerInit (roleArn externalId sessionName : String) : CredentialBroker :=
  { roleArn := roleArn, externalId := externalId,
    roleSessionName := sessionName, credentials := none }

/-- `_get_credentials`, threading the process-wide count of assume-role
calls.  Returns (result, broker after the call, new call count). -/
def get_credentials (sts : StsEnv) (b : CredentialBroker) (calls : Nat) :
    Except String AwsCredentials × CredentialBroker × Nat :=
  match b.credentials with
  | some c => (Except.ok c, b, calls)
  | none =>
      match sts.assumeRole calls with
      | Except.ok c => (Except.ok c, { b with credentials := some c }, calls + 1)
      | Except.error e => (Except.error e, b, calls + 1)

/-! ### Remote state backend managers

`S3StateManager.ensure_state_bucket` (s3_state_manager.py 75-139) checks
`head_bucket` for `sirpi-terraform-states-{account_id}`; a 404 is an error
instructing the user to deploy the CloudFormation stack — the bucket is
never created by this code.  Any other `ClientError` from `head_bucket` is
re-raised.  The DynamoDB `describe_table` check only logs, on both outcomes.

`ensure_gcs_state_bucket` (gcs_state_manager.py 17-116) checks
`get_bucket`; on `NotFound` it creates the bucket, and an `AlreadyExists`
raised by `create_bucket` (the check/create race) is treated as success.
A `Forbidden` whose message indicates a disabled Storage API triggers an
enable-and-retry; any other `Forbidden` is an error. -/

structure S3Env where
  /-- account id of the assumed role, from `get_caller_identity` -/
  accountId : String
  /-- buckets that exist in the user's account -/
  buckets : List String
  /-- injected non-404 `ClientError` code from `head_bucket`, if any -/
  headBucketError : Option String
  /-- `settings.s3_region` -/
  region : String
  /-- `settings.dynamodb_terraform_lock_table` -/
  lockTable : String
deriving DecidableEq, Repr

/-- `S3StateManager.ensure_state_bucket`.  Returns the result together with
the account's bucket list afterwards (unchanged on every path: the method
performs no create call). -/
def ensure_state_bucket (env : S3Env) (_projectName : String) :
    Except String String × List String :=
  let bucketName := "sirpi-terraform-states-" ++ env.accountId
  match env.headBucketError with
  | some code => (Except.error code, env.buckets)
  | none =>
      if env.buckets.contains bucketName then
        (Except.ok bucketName, env.buckets)
      else
        (Except.error ("State bucket " ++ bucketName ++
          " not found. Please ensure CloudFormation stack was deployed successfully."),
         env.buckets)

/-- `S3StateManager.configure_backend`: ensure the bucket, then render the
`backend "s3"` block (braces written as their character codes). -/
def configure_backend (env : S3Env) (projectName : String) : Except String String :=
  match (ensure_state_bucket env projectName).1 with
  | Except.error e => Except.error e
  | Except.ok bucketName =>
      Except.ok ("terraform \x7b\n  backend \"s3\" \x7b\n    bucket         = \""
        ++ bucketName ++ "\"\n    key            = \"projects/" ++ projectName
        ++ "/terraform.tfstate\"\n    region         = \"" ++ env.region
        ++ "\"\n    dynamodb_table = \"" ++ env.lockTable
        ++ "\"\n    encrypt        = true\n  \x7d\n\x7d\n")

/-- Outcome of the first `get_bucket` call of `ensure_gcs_state_bucket`. -/
inductive GetBucketOutcome
  /-- the call succeeds and reports the actual cloud state
  (found, or `NotFound` when absent) -/
  | fromState
  /-- `Forbidden` caused by the Storage API being disabled -/
  | forbiddenDisabled
  /-- `Forbidden` for any other reason -/
  | forbiddenOther (msg : String)
deriving DecidableEq, Repr

structure GcsEnv where
  /-- buckets that exist in the user's GCP project -/
  buckets : List String
  firstGet : GetBucketOutcome
  /-- a concurrent caller creates the bucket between the check and the
  create, so `create_bucket` raises `AlreadyExists` -/
  raceCreate : Bool
deriving DecidableEq, Repr

/-- `ensure_gcs_state_bucket`.  Returns (result, buckets afterwards,
whether THIS call performed the creation). -/
def ensure_gcs_state_bucket (env : GcsEnv) (gcpProjectId : String) :
    Except String String × List String × Bool :=
  let bucketName := "sirpi-terraform-states-" ++ gcpProjectId
  let createStep : Except String String × List String × Bool :=
    if env.raceCreate then
      -- create_bucket raises AlreadyExists: the racer created it; success
      (Except.ok bucketName, bucketName :: env.buckets, false)
    else
      (Except.ok bucketName, bucketName :: env.buckets, true)
  match env.firstGet with
  | GetBucketOutcome.forbiddenOther msg =>
      (Except.error ("Permission denied accessing bucket: " ++ msg),
       env.buckets, false)
  | GetBucketOutcome.fromState =>
      if env.buckets.contains bucketName then
        (Except.ok bucketName, env.buckets, false)
      else createStep
  | GetBucketOutcome.forbiddenDisabled =>
      -- enable_storage_api, sleep, then retry get_bucket against the state
      if env.buckets.contains bucketName then
        (Except.ok bucketName, env.buckets, false)
      else createStep

/-! ### Terraform outputs — AWSDeploymentService (aws_deployment.py) -/

/-- The JSON values `json.loads` can produce. -/
inductive JsonValue
  | str (s : String)
  | num (n : Int)
  | boolean (b : Bool)
  | null
  | arr (xs : List JsonValue)
  | obj (fields : List (String × JsonValue))

/-- `{exit_code, stdout, stderr}` of `sandbox.run_command`. -/
structure CommandResult where
  exit_code : Int
  stdout : String
  stderr : String
deriving DecidableEq, Repr

/-- What `_get_terraform_outputs` observes: the result of
`terraform output -json`, and the parse of its stdout (`none` when
`json.loads` raises). -/
structure OutputsEnv where
  outputResult : CommandResult
  parsed : Option JsonValue

/-- The flattening loop (aws_deployment.py 238-243): a dict value that has a
`"value"` key is replaced by that inner value. -/
def flattenOutputs (fields : List (String × JsonValue)) : List (String × JsonValue) :=
  fields.map (fun p =>
    match p.2 with
    | JsonValue.obj inner =>
        match inner.lookup "value" with
        | some v => (p.1, v)
        | none => (p.1, JsonValue.obj inner)
    | v => (p.1, v))

/-- `_get_terraform_outputs` (aws_deployment.py 216-249): non-zero exit or
any parse failure yields the empty map (with a warning logged); a parsed
JSON object is flattened.  A non-object parse makes `.items()` raise, which
the same `except` turns into the empty map. -/
def get_terraform_outputs (env : OutputsEnv) : List (String × JsonValue) :=
  if env.outputResult.exit_code ≠ 0 then []
  else
    match env.parsed with
    | some (JsonValue.obj fields) => flattenOutputs fields
    | _ => []

/-- `terraform_apply` (aws_deployment.py 145-182): fails only on a non-zero
exit of `terraform apply`; otherwise returns the (possibly empty) parsed
output map. -/
def terraform_apply (applyExit : Int) (env : OutputsEnv) :
    Except String (List (String × JsonValue)) :=
  if applyExit ≠ 0 then Except.error "Terraform apply failed"
  else Except.ok (get_terraform_outputs env)

/-! ### The two regular expressions of src/api/aws_deployments.py

Both patterns contain only greedy quantifiers over character classes each of
which excludes the character the following literal begins with, so Python's
leftmost-greedy search is equivalent to a maximal-munch scan: no
backtracking within a start position can change the outcome.  We embed them
as deterministic scanners over the character list.

`\s` is embedded as the six ASCII whitespace characters Python's `re`
matches (the Unicode extension of `\s` is elided: log lines and Terraform
sources are ASCII). -/

def isPySpace (c : Char) : Bool :=
  c = ' ' || c = '\t' || c = '\n' || c = '\x0d' || c = '\x0b' || c = '\x0c'

def isAsciiDigit (c : Char) : Bool := '0' ≤ c && c ≤ '9'

/-- the class `[a-z0-9-]` -/
def isEcrHostChar (c : Char) : Bool :=
  ('a' ≤ c && c ≤ 'z') || isAsciiDigit c || c = '-'

/-- Consume a literal prefix, returning the suffix. -/
def dropLit : List Char → List Char → Option (List Char)
  | [], rest => some rest
  | _ :: _, [] => none
  | c :: cs, d :: ds => if c = d then dropLit cs ds else none

/-- `startsWithL needle l`: `l` begins with `needle`. -/
def startsWithL : List Char → List Char → Bool
  | [], _ => true
  | _ :: _, [] => false
  | c :: cs, d :: ds => c = d && startsWithL cs ds

/-- Substring containment, i.e. Python's `needle in hay`. -/
def containsSeq (needle : List Char) : List Char → Bool
  | [] => startsWithL needle []
  | l@(_ :: rest) => startsWithL needle l || containsSeq needle rest

def containsSub (needle hay : String) : Bool :=
  containsSeq needle.toList hay.toList

/-- Try to match
`([0-9]+\.dkr\.ecr\.[a-z0-9-]+\.amazonaws\.com/[^\s:]+:[^\s]+)`
anchored at the head of `l`; return the matched text. -/
def ecrMatchAt (l : List Char) : Option String :=
  let ds := l.takeWhile isAsciiDigit
  if ds.isEmpty then none else
  match dropLit ".dkr.ecr.".toList (l.dropWhile isAsciiDigit) with
  | none => none
  | some l2 =>
    let hs := l2.takeWhile isEcrHostChar
    if hs.isEmpty then none else
    match dropLit ".amazonaws.com/".toList (l2.dropWhile isEcrHostChar) with
    | none => none
    | some l4 =>
      let repoChar : Char → Bool := fun c => !(isPySpace c) && c ≠ ':'
      let rs := l4.takeWhile repoChar
      if rs.isEmpty then none else
      match l4.dropWhile repoChar with
      | ':' :: l6 =>
        let ts := l6.takeWhile (fun c => !(isPySpace c))
        if ts.isEmpty then none else
        some (String.mk (ds ++ ".dkr.ecr.".toList ++ hs ++ ".amazonaws.com/".toList
          ++ rs ++ [':'] ++ ts))
      | _ => none

/-- `re.search` of the ECR pattern: try every start position, left to right. -/
def ecrSearch : List Char → Option String
  | [] => none
  | l@(_ :: rest) =>
      match ecrMatchAt l with
      | some s => some s
      | none => ecrSearch rest

/-- The image-URI discovery loop of the plan/apply/destroy handlers
(aws_deployments.py 224-234 and analogues): scan the stored build logs for
the first line that passes the `".ecr." in log and ".amazonaws.com" in log`
pre-filter AND whose regex search succeeds; `break` on the first hit. -/
def extractImageUri : List String → Option String
  | [] => none
  | line :: rest =>
      if containsSub ".ecr." line && containsSub ".amazonaws.com" line then
        match ecrSearch line.toList with
        | some uri => some uri
        | none => extractImageUri rest
      else extractImageUri rest

/-- Try to match `backend\s+"[^"]+"\s*\{[^}]*\}` anchored at the head of
`l`; return the suffix after the match. -/
def backendBlockAt (l : List Char) : Option (List Char) :=
  match dropLit "backend".toList l with
  | none => none
  | some l1 =>
    match l1 with
    | c :: l2 =>
      if isPySpace c then
        match (l2.dropWhile isPySpace) with
        | '"' :: l3 =>
          let nm := l3.takeWhile (fun d => d ≠ '"')
          if nm.isEmpty then none else
          match l3.dropWhile (fun d => d ≠ '"') with
          | '"' :: l4 =>
            match l4.dropWhile isPySpace with
            | '\x7b' :: l5 =>
              match l5.dropWhile (fun d => d ≠ '\x7d') with
              | '\x7d' :: l6 => some l6
              | _ => none
            | _ => none
          | _ => none
        | _ => none
      else none
    | [] => none

/-- `re.sub(pattern, "", content)`: remove every non-overlapping leftmost
match.  Fuel is the length of the list; each step consumes at least one
character, so the fuel never runs out on the initial call. -/
def removeBackendAux : Nat → List Char → List Char
  | 0, l => l
  | _ + 1, [] => []
  | fuel + 1, c :: cs =>
      match backendBlockAt (c :: cs) with
      | some rest => removeBackendAux fuel rest
      | none => c :: removeBackendAux fuel cs

def removeBackendBlocks (content : String) : String :=
  String.mk (removeBackendAux content.toList.length content.toList)

/-- The per-file guard of the three handlers (aws_deployments.py 272-277,
417-420, 570-573): the backend blocks are stripped only when the content
mentions an s3 or gcs backend. -/
def stripBackend (content : String) : String :=
  if containsSub "backend \"s3\"" content || containsSub "backend \"gcs\"" content then
    removeBackendBlocks content
  else content

/-! ### AWS deployment endpoints — src/api/aws_deployments.py

`plan_aws_deployment`, `apply_aws_deployment` and `destroy_aws_deployment`
are modelled from the point after the project/connection lookup and the GCS
file fetch (those collaborators are the `DeployEnv` fields).  Each handler
is embedded as the ordered trace of the side effects it performs plus its
HTTP outcome; the `_log` lines streamed to SSE subscribers are elided from
the trace (no claim concerns them). -/

structure DeployEnv where
  /-- `project["name"]` -/
  projectName : String
  /-- the `.tf` files fetched from GCS (path, content) -/
  tfFiles : List (String × String)
  /-- `supabase.get_deployment_logs(project_id, "build_image")["logs"]` -/
  buildLogs : List String
  /-- decrypted environment variables of the project -/
  envVars : List (String × String)
  /-- outcome of `_get_credentials` inside `_configure_aws_credentials` -/
  credsResult : Except String AwsCredentials
  /-- the state-backend environment of the embedded `S3StateManager` -/
  s3 : S3Env
  initResult : CommandResult
  planResult : CommandResult
  applyResult : CommandResult
  destroyResult : CommandResult
  outputs : OutputsEnv

inductive DeployEvent
  | registerSse
  | createSandbox
  | runCommand (cmd : String)
  | writeFile (path content : String)
  | tfInit
  | tfPlan
  | tfApply
  | tfDestroy
  | cleanupState
  | saveLogs (op status : String)
  | updateProjectStatus (st : String)
  | clearProjectOutputs
  | sendCompletion
deriving DecidableEq, Repr

def tfDir : String := "/home/user/terraform"

/-- Python's `str(...)` on a possibly-`None` value, as interpolated by the
`apply` handler's tfvars f-string. -/
def pyStr : Option String → String
  | some s => s
  | none => "None"

def escapeTfValue (v : String) : String := v.replace "\"" "\\\""

/-- The `app_env_vars` map block (aws_deployments.py 296-301). -/
def envVarsBlock (envVars : List (String × String)) : String :=
  "\x7b\n" ++
  String.join (envVars.map (fun p =>
    "  \"" ++ p.1 ++ "\" = \"" ++ escapeTfValue p.2 ++ "\"\n")) ++ "\x7d"

/-- `tfvars_content` (aws_deployments.py 289-302 and analogues). -/
def tfvarsContent (imageUri appName ecrRepo : String)
    (envVars : List (String × String)) : String :=
  "image_uri = \"" ++ imageUri ++ "\"\napp_name = \"" ++ appName
    ++ "\"\necr_repository_name = \"" ++ ecrRepo ++ "\"\n"
  ++ (if envVars.isEmpty then ""
      else "app_env_vars = " ++ envVarsBlock envVars ++ "\n")

/-- The credential-file writes of `_configure_aws_credentials`
(aws_deployment.py 60-88); the file contents embed the assumed
credentials. -/
def configureCredsEvents (c : AwsCredentials) (region : String) : List DeployEvent :=
  [DeployEvent.runCommand "mkdir -p /home/user/.aws",
   DeployEvent.writeFile "/home/user/.aws/config"
     ("[default]\nregion = " ++ region ++ "\noutput = json\n"),
   DeployEvent.writeFile "/home/user/.aws/credentials"
     ("[default]\naws_access_key_id = " ++ c.accessKeyId
       ++ "\naws_secret_access_key = " ++ c.secretAccessKey
       ++ "\naws_session_token = " ++ c.sessionToken ++ "\n")]

/-- Writing the fetched `.tf` files after the backend-block guard
(aws_deployments.py 272-280 and analogues). -/
def writeTfFileEvents (files : List (String × String)) : List DeployEvent :=
  files.map (fun f => DeployEvent.writeFile (tfDir ++ "/" ++ f.1) (stripBackend f.2))

/-- The `except` tail of a handler: persist the error log, close the SSE
stream, answer 500. -/
def failTail (op : String) (events : List DeployEvent) (label msg : String) :
    List DeployEvent × Except (Nat × String) String :=
  (events ++ [DeployEvent.saveLogs op "failed", DeployEvent.sendCompletion],
   Except.error (500, label ++ msg))

/-- Sandbox section shared verbatim by the three handlers: configure
credentials, `mkdir`, write the (stripped) `.tf` files, set up the state
backend (write `backend.tf`), write `terraform.tfvars`, `terraform init`.
Returns either the events up to the failure plus its message, or the full
event prefix on success. -/
def sandboxPrefix (env : DeployEnv) (imageUriStr : String) :
    Except (List DeployEvent × String) (List DeployEvent) :=
  let pre := [DeployEvent.registerSse, DeployEvent.createSandbox]
  match env.credsResult with
  | Except.error e => Except.error (pre, e)
  | Except.ok c =>
    let ev1 := pre ++ configureCredsEvents c env.s3.region
      ++ [DeployEvent.runCommand ("mkdir -p " ++ tfDir)]
      ++ writeTfFileEvents env.tfFiles
    match configure_backend env.s3 env.projectName with
    | Except.error e => Except.error (ev1, e)
    | Except.ok backendCfg =>
      let appName := env.projectName.toLower
      let ev2 := ev1
        ++ [DeployEvent.writeFile (tfDir ++ "/backend.tf") backendCfg,
            DeployEvent.writeFile (tfDir ++ "/terraform.tfvars")
              (tfvarsContent imageUriStr appName ("sirpi/" ++ appName) env.envVars),
            DeployEvent.tfInit]
      if env.initResult.exit_code ≠ 0 then
        Except.error (ev2, "Terraform init failed: " ++ env.initResult.stderr)
      else Except.ok ev2

/-- `plan_aws_deployment` (aws_deployments.py 194-346). -/
def plan_aws_deployment (env : DeployEnv) :
    List DeployEvent × Except (Nat × String) String :=
  if env.tfFiles.isEmpty then
    ([], Except.error (404, "No Terraform files found"))
  else
    match extractImageUri env.buildLogs with
    | none =>
        ([], Except.error (400, "No Docker image found. Please build the image first."))
    | some imageUri =>
      match sandboxPrefix env imageUri with
      | Except.error fe => failTail "plan" fe.1 "Plan failed: " fe.2
      | Except.ok ev =>
        let ev2 := ev ++ [DeployEvent.tfPlan]
        if env.planResult.exit_code ≠ 0 then
          failTail "plan" ev2 "Plan failed: "
            ("Terraform plan failed: " ++ env.planResult.stderr)
        else
          (ev2 ++ [DeployEvent.saveLogs "plan" "success",
                   DeployEvent.updateProjectStatus "plan_generated",
                   DeployEvent.sendCompletion],
           Except.ok env.planResult.stdout)

/-- `apply_aws_deployment` (aws_deployments.py 349-500).  Note: unlike
`plan`, it has no empty-`tf_files` check and no missing-image check — a
missing image URI is interpolated as the string `"None"`. -/
def apply_aws_deployment (env : DeployEnv) :
    List DeployEvent × Except (Nat × String) String :=
  match sandboxPrefix env (pyStr (extractImageUri env.buildLogs)) with
  | Except.error fe => failTail "apply" fe.1 "Deployment failed: " fe.2
  | Except.ok ev =>
    let ev2 := ev ++ [DeployEvent.tfApply]
    if env.applyResult.exit_code ≠ 0 then
      failTail "apply" ev2 "Deployment failed: "
        ("Terraform apply failed: " ++ env.applyResult.stderr)
    else
      (ev2 ++ [DeployEvent.saveLogs "apply" "success",
               DeployEvent.updateProjectStatus "deployed",
               DeployEvent.sendCompletion],
       Except.ok "deployed")

/-- `destroy_aws_deployment` (aws_deployments.py 503-651).  The image URI
falls back to `"placeholder:latest"`. -/
def destroy_aws_deployment (env : DeployEnv) :
    List DeployEvent × Except (Nat × String) String :=
  match sandboxPrefix env ((extractImageUri env.buildLogs).getD "placeholder:latest") with
  | Except.error fe => failTail "destroy" fe.1 "Destroy failed: " fe.2
  | Except.ok ev =>
    let ev2 := ev ++ [DeployEvent.tfDestroy]
    if env.destroyResult.exit_code ≠ 0 then
      failTail "destroy" ev2 "Destroy failed: "
        ("Terraform destroy failed: " ++ env.destroyResult.stderr)
    else
      (ev2 ++ [DeployEvent.cleanupState,
               DeployEvent.saveLogs "destroy" "success",
               DeployEvent.updateProjectStatus "destroyed",
               DeployEvent.clearProjectOutputs,
               DeployEvent.sendCompletion],
       Except.ok "destroyed")

/-! ### Workflow orchestrator — src/agentcore/orchestrator.py

The external collaborators of `run_workflow` (the GitHub fetch, the LLM
analysis, the two artifact generators) are modelled as the `Except` results
they deliver.  `asyncio.gather` joins the two generation tasks: both results
are required, and either failure fails the join (the model reports the
Dockerfile task's error first when both fail; which of the two exceptions
`gather` re-raises when both tasks fail depends on scheduling and no claim
depends on it). -/

structure AnalysisResult where
  language : String
  framework : Option String
  runtime_version : Option String
  exposed_port : Nat
  dependencies : List (String × String)
  environment_variables : List String
deriving DecidableEq, Repr

structure RawRepoData where
  filesCount : Nat
  packageFilesCount : Nat
  detected_language : Option String
deriving DecidableEq, Repr

structure WorkflowEnv where
  fetchRepo : Except String RawRepoData
  analyze : Except String AnalysisResult
  generateDockerfile : Except String String
  generateTerraform : Except String (List (String × String))

/-- `WorkflowState` (orchestrator.py 30-42). -/
structure WorkflowState where
  github_repo_url : String
  local_repo_path : String
  cloud_provider : String
  status : String
  error : Option String
  analysis_result : Option AnalysisResult
  generated_dockerfile : Option String
  generated_terraform : Option (List (String × String))
deriving DecidableEq, Repr

/-- The join of the two stage-2 generation tasks. -/
def gatherTwo (a : Except String String) (b : Except String (List (String × String))) :
    Except String (String × List (String × String)) :=
  match a, b with
  | Except.ok x, Except.ok y => Except.ok (x, y)
  | Except.error e, _ => Except.error e
  | _, Except.error e => Except.error e

/-- `SirpiOrchestrator.run_workflow` (orchestrator.py 119-331): the
`try/except` converts every pipeline exception into a returned state with
status FAILED and the stringified error, keeping whatever results were
assigned before the failure.  (`_log_to_session` swallows its own
database errors and does not affect the state.) -/
def run_workflow (env : WorkflowEnv) (url provider : String) : WorkflowState :=
  let s0 : WorkflowState :=
    { github_repo_url := url, local_repo_path := "", cloud_provider := provider,
      status := "PENDING", error := none, analysis_result := none,
      generated_dockerfile := none, generated_terraform := none }
  let s1 := { s0 with status := "ANALYZING" }
  match env.fetchRepo with
  | Except.error e => { s1 with status := "FAILED", error := some e }
  | Except.ok _ =>
    match env.analyze with
    | Except.error e => { s1 with status := "FAILED", error := some e }
    | Except.ok ar =>
      let s2 := { s1 with analysis_result := some ar }
      let s3 := { s2 with status := "GENERATING" }
      match gatherTwo env.generateDockerfile env.generateTerraform with
      | Except.error e => { s3 with status := "FAILED", error := some e }
      | Except.ok dt =>
        { s3 with generated_dockerfile := some dt.1,
                  generated_terraform := some dt.2, status := "SUCCESS" }

/-! `execute` (orchestrator.py 478-814): stage-tagged log accumulation,
failure attribution, and the upload stage. -/

/-- The four per-stage log-line lists of `stage_logs`. -/
structure StageLogs where
  analyze : List String
  ai_analysis : List String
  generate : List String
  upload : List String
deriving DecidableEq, Repr

def stageLines (s : StageLogs) : String → List String
  | "analyze" => s.analyze
  | "ai_analysis" => s.ai_analysis
  | "generate" => s.generate
  | "upload" => s.upload
  | _ => []

def appendToStage (s : StageLogs) (st : String) (line : String) : StageLogs :=
  if st = "analyze" then { s with analyze := s.analyze ++ [line] }
  else if st = "ai_analysis" then { s with ai_analysis := s.ai_analysis ++ [line] }
  else if st = "generate" then { s with generate := s.generate ++ [line] }
  else if st = "upload" then { s with upload := s.upload ++ [line] }
  else s

/-- The fixed stage order of the attribution chain and of the
`stage_logs` dict. -/
def stageOrder : List String := ["analyze", "ai_analysis", "generate", "upload"]

/-- The attribution chain (orchestrator.py 769-777): the first stage whose
log list is empty or shorter than two lines. -/
def failedStage (s : StageLogs) : Option String :=
  if s.analyze.isEmpty || s.analyze.length < 2 then some "analyze"
  else if s.ai_analysis.isEmpty || s.ai_analysis.length < 2 then some "ai_analysis"
  else if s.generate.isEmpty || s.generate.length < 2 then some "generate"
  else if s.upload.isEmpty || s.upload.length < 2 then some "upload"
  else none

/-- The "mark all incomplete stages as error" loop (orchestrator.py
786-793), transcribed literally: a stage with no lines is skipped; a stage
with lines whose timer was started is saved with error status only when it
is NOT among the stages that have lines — a contradiction, so the loop
saves nothing (dead code in the source). -/
def deadLoopSaves (s : StageLogs) (timers : List String) : List (String × String) :=
  stageOrder.filterMap (fun st =>
    if (stageLines s st).length = 0 then none
    else if timers.contains st then
      if (stageOrder.filter (fun t => !(stageLines s t).isEmpty)).contains st then none
      else some (st, "error")
    else none)

/-- The `except` block of `execute` (orchestrator.py 765-793): attribute
the failure, append the failure line to the attributed stage, save that
stage with error status, then run the (dead) cleanup loop.  Returns the
stage logs afterwards and the `(stage, status)` saves performed, in order. -/
def handleWorkflowFailure (s : StageLogs) (err : String) (timers : List String) :
    StageLogs × List (String × String) :=
  match failedStage s with
  | some st =>
      let s2 := appendToStage s st ("[ORCHESTRATOR] Workflow failed: " ++ err)
      (s2, (st, "error") :: deadLoopSaves s2 timers)
  | none => (s, deadLoopSaves s timers)

/-- Side effects of `execute` in the order they are performed. -/
inductive ExecEvent
  | saveStage (stage status : String)
  | deleteOldFiles
  | uploadFile (path : String)
  | updateGeneration (status : String)
  | updateProject (status : String)
deriving DecidableEq, Repr

structure ExecuteResult where
  stageLogs : StageLogs
  events : List ExecEvent
  workflow : WorkflowState
deriving DecidableEq, Repr

/-- Discriminator for upload events in an `execute` trace. -/
def isUploadEvent : ExecEvent → Bool
  | ExecEvent.uploadFile _ => true
  | _ => false

/-- `files_to_upload` (orchestrator.py 664-683). -/
def filesToUpload (ws : WorkflowState) : List (String × String) :=
  (match ws.generated_dockerfile with
   | some d => [("Dockerfile", d)]
   | none => []) ++ ws.generated_terraform.getD []

/-- `SirpiOrchestrator.execute` (orchestrator.py 478-814).  Timestamps in
the formatted log lines are elided; the storage and database collaborators
are modelled as succeeding (`deletedCount` is what
`delete_repository_files` reports), so the only exception source is the
re-raise of a FAILED workflow — the path the claims under verification are
about. -/
def execute (env : WorkflowEnv) (url provider owner repo : String)
    (deletedCount : Nat) (hasProjectId : Bool) : ExecuteResult :=
  let analyzeLogs : List String :=
    ["[ORCHESTRATOR] Starting workflow for " ++ url,
     "[ORCHESTRATOR] Repository: " ++ owner ++ "/" ++ repo,
     "[ORCHESTRATOR] Fetching repository structure via GitHub API..."]
  let aiLogs0 : List String := ["[CODE ANALYZER] Starting AI-powered code analysis"]
  let ws := run_workflow env url provider
  if ws.status = "FAILED" then
    -- raise Exception(workflow_state.error or "Workflow failed")
    let err := ws.error.getD "Workflow failed"
    let logsAtRaise : StageLogs :=
      { analyze := analyzeLogs,
        ai_analysis := aiLogs0 ++ ["[ORCHESTRATOR] Workflow failed: " ++ err],
        generate := [], upload := [] }
    let handled := handleWorkflowFailure logsAtRaise err ["analyze", "ai_analysis"]
    { stageLogs := handled.1,
      events :=
        [ExecEvent.saveStage "analyze" "error",
         ExecEvent.saveStage "ai_analysis" "error"]
        ++ handled.2.map (fun p => ExecEvent.saveStage p.1 p.2)
        ++ [ExecEvent.updateGeneration "FAILED"]
        ++ (if hasProjectId then [ExecEvent.updateProject "failed"] else []),
      workflow := ws }
  else
    let aiLogs := aiLogs0 ++
      (match ws.analysis_result with
       | some ar =>
         ["[CODE ANALYZER] Detected " ++ (ar.framework.getD ar.language)
            ++ " on port " ++ toString ar.exposed_port,
          "[CODE ANALYZER] Found " ++ toString ar.dependencies.length ++ " dependencies",
          "[CODE ANALYZER] Environment variables required: "
            ++ String.intercalate ", " (ar.environment_variables.take 5)]
       | none => [])
    let generateLogs : List String :=
      ["[GENERATOR] Starting infrastructure file generation",
       "[ORCHESTRATOR] Infrastructure generation completed successfully"] ++
      (match ws.analysis_result with
       | some ar =>
         ["[DOCKERFILE GENERATOR] Generated production Dockerfile for "
            ++ (ar.framework.getD ar.language),
          "[TERRAFORM GENERATOR] Generated "
            ++ toString (ws.generated_terraform.getD []).length ++ " Terraform files",
          "[GENERATOR] Multi-stage build with "
            ++ (ar.runtime_version.getD (ar.framework.getD ar.language)) ++ " runtime"]
       | none => [])
    let files := filesToUpload ws
    let uploadLogs : List String :=
      ["[STORAGE] Preparing to upload " ++ toString files.length ++ " files to GCS"]
      ++ (if deletedCount > 0 then
            ["[STORAGE] Cleared " ++ toString deletedCount ++ " old files from storage"]
          else [])
      ++ files.map (fun f => "[STORAGE] Uploaded " ++ f.1)
      ++ ["[STORAGE] Successfully uploaded all " ++ toString files.length
            ++ " files to cloud storage"]
    { stageLogs :=
        { analyze := analyzeLogs, ai_analysis := aiLogs,
          generate := generateLogs, upload := uploadLogs },
      events :=
        [ExecEvent.saveStage "analyze" "success",
         ExecEvent.saveStage "ai_analysis" "success",
         ExecEvent.saveStage "generate" "success",
         ExecEvent.deleteOldFiles]
        ++ files.map (fun f => ExecEvent.uploadFile (owner ++ "/" ++ repo ++ "/" ++ f.1))
        ++ [ExecEvent.saveStage "upload" "success",
            ExecEvent.updateGeneration "COMPLETED"]
        ++ (if hasProjectId then [ExecEvent.updateProject "completed"] else []),
      workflow := ws }

/-! ## Theorems -/

/-- C6: on any of the three broker classes, a fresh broker instance performs
one assume-role call on its first `get_credentials` (the call count rises
from `n` to `n + 1`), and a second `get_credentials` on the same instance
returns the identical cached bundle with the call count unchanged — no
second assume-role call. -/
theorem credential_caching (sts : StsEnv) (ra ei sn : String) (n : Nat)
    (c : AwsCredentials) (h : sts.assumeRole n = Except.ok c) :
    (get_credentials sts (brokerInit ra ei sn) n).1 = Except.ok c
    ∧ (get_credentials sts (brokerInit ra ei sn) n).2.2 = n + 1
    ∧ get_credentials sts (get_credentials sts (brokerInit ra ei sn) n).2.1
        (get_credentials sts (brokerInit ra ei sn) n).2.2
      = (Except.ok c, (get_credentials sts (brokerInit ra ei sn) n).2.1, n + 1) := by
  simp [get_credentials, brokerInit, h]

/-- Witness for C6 at a concrete STS environment. -/
theorem credential_caching_witness :
    (get_credentials ⟨fun _ => Except.ok ⟨"AKIA1", "SECRET1", "TOKEN1"⟩⟩
        (brokerInit "arn:aws:iam::1:role/r" "ext-id" "sirpi-terraform") 0).1
      = Except.ok ⟨"AKIA1", "SECRET1", "TOKEN1"⟩
    ∧ (get_credentials ⟨fun _ => Except.ok ⟨"AKIA1", "SECRET1", "TOKEN1"⟩⟩
        (brokerInit "arn:aws:iam::1:role/r" "ext-id" "sirpi-terraform") 0).2.2 = 0 + 1
    ∧ get_credentials ⟨fun _ => Except.ok ⟨"AKIA1", "SECRET1", "TOKEN1"⟩⟩
        (get_credentials ⟨fun _ => Except.ok ⟨"AKIA1", "SECRET1", "TOKEN1"⟩⟩
          (brokerInit "arn:aws:iam::1:role/r" "ext-id" "sirpi-terraform") 0).2.1
        (get_credentials ⟨fun _ => Except.ok ⟨"AKIA1", "SECRET1", "TOKEN1"⟩⟩
          (brokerInit "arn:aws:iam::1:role/r" "ext-id" "sirpi-terraform") 0).2.2
      = (Except.ok ⟨"AKIA1", "SECRET1", "TOKEN1"⟩,
         (get_credentials ⟨fun _ => Except.ok ⟨"AKIA1", "SECRET1", "TOKEN1"⟩⟩
           (brokerInit "arn:aws:iam::1:role/r" "ext-id" "sirpi-terraform") 0).2.1, 0 + 1) :=
  credential_caching ⟨fun _ => Except.ok ⟨"AKIA1", "SECRET1", "TOKEN1"⟩⟩
    "arn:aws:iam::1:role/r" "ext-id" "sirpi-terraform" 0
    ⟨"AKIA1", "SECRET1", "TOKEN1"⟩ rfl

/-- C8: the parsed output map is flattened — an entry whose value is an
object containing the key `"value"` is replaced by that inner value, all
other entries are kept as they are; a non-zero exit of
`terraform output -json` or an unparsable stdout yields the empty map, and
`terraform_apply` still succeeds. -/
theorem apply_outputs_flattened (env : OutputsEnv) (fields : List (String × JsonValue))
    (hexit : env.outputResult.exit_code = 0)
    (hparse : env.parsed = some (JsonValue.obj fields)) :
    get_terraform_outputs env = flattenOutputs fields
    ∧ (∀ k : String, ∀ inner : List (String × JsonValue), ∀ v : JsonValue,
        (k, JsonValue.obj inner) ∈ fields → inner.lookup "value" = some v →
          (k, v) ∈ flattenOutputs fields)
    ∧ (∀ k : String, ∀ s : String, (k, JsonValue.str s) ∈ fields →
          (k, JsonValue.str s) ∈ flattenOutputs fields)
    ∧ (∀ env2 : OutputsEnv, env2.outputResult.exit_code ≠ 0 →
        get_terraform_outputs env2 = [] ∧ terraform_apply 0 env2 = Except.ok [])
    ∧ (∀ env3 : OutputsEnv, env3.parsed = none →
        env3.outputResult.exit_code = 0 →
        get_terraform_outputs env3 = [] ∧ terraform_apply 0 env3 = Except.ok []) := by
  refine ⟨?_, ?_, ?_, ?_, ?_⟩
  · simp [get_terraform_outputs, hexit, hparse]
  · intro k inner v hmem hv
    have := List.mem_map_of_mem
      (fun p : String × JsonValue =>
        match p.2 with
        | JsonValue.obj innerf =>
            match innerf.lookup "value" with
            | some w => (p.1, w)
            | none => (p.1, JsonValue.obj innerf)
        | w => (p.1, w)) hmem
    simpa [flattenOutputs, hv] using this
  · intro k s hmem
    have := List.mem_map_of_mem
      (fun p : String × JsonValue =>
        match p.2 with
        | JsonValue.obj innerf =>
            match innerf.lookup "value" with
            | some w => (p.1, w)
            | none => (p.1, JsonValue.obj innerf)
        | w => (p.1, w)) hmem
    simpa [flattenOutputs] using this
  · intro env2 h2
    constructor
    · simp [get_terraform_outputs, h2]
    · simp [terraform_apply, get_terraform_outputs, h2]
  · intro env3 h3 h4
    constructor
    · simp [get_terraform_outputs, h3, h4]
    · simp [terraform_apply, get_terraform_outputs, h3, h4]

/-- Witness for C8 at a concrete output map containing both a wrapped and
an unwrapped entry. -/
theorem apply_outputs_flattened_witness :
    get_terraform_outputs
        ⟨⟨0, "out", ""⟩,
         some (JsonValue.obj
           [("alb_dns_name", JsonValue.obj [("value", JsonValue.str "x.elb.amazonaws.com")]),
            ("plain", JsonValue.str "keep")])⟩
      = flattenOutputs
          [("alb_dns_name", JsonValue.obj [("value", JsonValue.str "x.elb.amazonaws.com")]),
           ("plain", JsonValue.str "keep")] :=
  (apply_outputs_flattened
    ⟨⟨0, "out", ""⟩,
     some (JsonValue.obj
       [("alb_dns_name", JsonValue.obj [("value", JsonValue.str "x.elb.amazonaws.com")]),
        ("plain", JsonValue.str "keep")])⟩
    [("alb_dns_name", JsonValue.obj [("value", JsonValue.str "x.elb.amazonaws.com")]),
     ("plain", JsonValue.str "keep")] rfl rfl).1

/-- C10: `run_workflow` returns on every input — each collaborator failure
is caught and converted to a returned state with status `FAILED` and the
stringified error, and results assigned before the failure (here the
analysis result when a generation task fails) remain in the returned
state; on every input the outcome is either `SUCCESS` with no error or
`FAILED` with an error message. -/
theorem run_workflow_never_raises (env : WorkflowEnv) (url provider : String)
    (ar : AnalysisResult) (e : String)
    (hfetch : ∃ raw, env.fetchRepo = Except.ok raw)
    (hana : env.analyze = Except.ok ar)
    (hgen : env.generateDockerfile = Except.error e) :
    (run_workflow env url provider).status = "FAILED"
    ∧ (run_workflow env url provider).error = some e
    ∧ (run_workflow env url provider).analysis_result = some ar
    ∧ ∀ (env2 : WorkflowEnv) (u p : String),
        ((run_workflow env2 u p).status = "SUCCESS" ∧ (run_workflow env2 u p).error = none)
        ∨ ((run_workflow env2 u p).status = "FAILED"
            ∧ ((run_workflow env2 u p).error).isSome = true) := by
  obtain ⟨raw, hraw⟩ := hfetch
  refine ⟨?_, ?_, ?_, ?_⟩
  · simp [run_workflow, hraw, hana, hgen, gatherTwo]
  · simp [run_workflow, hraw, hana, hgen, gatherTwo]
  · simp [run_workflow, hraw, hana, hgen, gatherTwo]
  · intro env2 u p
    unfold run_workflow
    cases env2.fetchRepo with
    | error e2 => right; simp
    | ok raw2 =>
      cases env2.analyze with
      | error e2 => right; simp
      | ok ar2 =>
        cases hg : gatherTwo env2.generateDockerfile env2.generateTerraform with
        | error e2 => right; simp [hg]
        | ok dt => left; simp [hg]

/-- Witness for C10 at a concrete environment whose Dockerfile generator
fails. -/
theorem run_workflow_never_raises_witness :
    (run_workflow
        ⟨Except.ok ⟨12, 2, some "Python"⟩,
         Except.ok ⟨"Python", some "FastAPI", some "3.12", 8000, [], []⟩,
         Except.error "LLM quota exceeded",
         Except.ok [("main.tf", "resource")]⟩
        "https://github.com/o/r" "aws").status = "FAILED"
    ∧ (run_workflow
        ⟨Except.ok ⟨12, 2, some "Python"⟩,
         Except.ok ⟨"Python", some "FastAPI", some "3.12", 8000, [], []⟩,
         Except.error "LLM quota exceeded",
         Except.ok [("main.tf", "resource")]⟩
        "https://github.com/o/r" "aws").error = some "LLM quota exceeded"
    ∧ (run_workflow
        ⟨Except.ok ⟨12, 2, some "Python"⟩,
         Except.ok ⟨"Python", some "FastAPI", some "3.12", 8000, [], []⟩,
         Except.error "LLM quota exceeded",
         Except.ok [("main.tf", "resource")]⟩
        "https://github.com/o/r" "aws").analysis_result
      = some ⟨"Python", some "FastAPI", some "3.12", 8000, [], []⟩ := by
  have h := run_workflow_never_raises
    ⟨Except.ok ⟨12, 2, some "Python"⟩,
     Except.ok ⟨"Python", some "FastAPI", some "3.12", 8000, [], []⟩,
     Except.error "LLM quota exceeded",
     Except.ok [("main.tf", "resource")]⟩
    "https://github.com/o/r" "aws"
    ⟨"Python", some "FastAPI", some "3.12", 8000, [], []⟩
    "LLM quota exceeded" ⟨⟨12, 2, some "Python"⟩, rfl⟩ rfl rfl
  exact ⟨h.1, h.2.1, h.2.2.1⟩

/-- The "mark all incomplete stages" loop of the `except` block never saves
anything: its guard requires a stage that both has log lines and is not
among the stages that have log lines. -/
theorem deadLoopSaves_eq_nil (s : StageLogs) (timers : List String) :
    deadLoopSaves s timers = [] := by
  obtain ⟨a, b, c, d⟩ := s
  cases a <;> cases b <;> cases c <;> cases d <;>
    simp [deadLoopSaves, stageOrder, stageLines, List.filterMap]

/-- C4: a failed run is attributed to the first stage, in the fixed order
analyze, ai_analysis, generate, upload, that has fewer than two accumulated
log lines; in particular with ≥ 2 lines for analyze and ai_analysis and 0
lines for generate, the failure is attributed to stage "generate" and that
stage is the one saved with error status. -/
theorem failure_attribution (s : StageLogs) (err : String) (timers : List String)
    (h1 : 2 ≤ s.analyze.length) (h2 : 2 ≤ s.ai_analysis.length)
    (h3 : s.generate = []) :
    failedStage s = some "generate"
    ∧ (handleWorkflowFailure s err timers).2 = [("generate", "error")]
    ∧ ∀ t : StageLogs,
        failedStage t = stageOrder.find? (fun st => decide ((stageLines t st).length < 2)) := by
  have ha : ¬ (s.analyze.length < 2) := by omega
  have hb : ¬ (s.ai_analysis.length < 2) := by omega
  have hae : s.analyze.isEmpty = false := by
    cases hx : s.analyze with
    | nil => rw [hx] at h1; simp at h1
    | cons x xs => simp
  have hbe : s.ai_analysis.isEmpty = false := by
    cases hx : s.ai_analysis with
    | nil => rw [hx] at h2; simp at h2
    | cons x xs => simp
  have hfs : failedStage s = some "generate" := by
    simp [failedStage, ha, hb, hae, hbe, h3]
  refine ⟨hfs, ?_, ?_⟩
  · simp [handleWorkflowFailure, hfs, deadLoopSaves_eq_nil]
  · intro t
    simp only [failedStage, stageOrder, List.find?, stageLines]
    by_cases c1 : t.analyze.length < 2
    · have : t.analyze.isEmpty || decide (t.analyze.length < 2) = true := by
        simp [c1]
      simp [c1]
    · have c1e : t.analyze.isEmpty = false := by
        cases hx : t.analyze with
        | nil => rw [hx] at c1; simp at c1
        | cons x xs => simp
      by_cases c2 : t.ai_analysis.length < 2
      · simp [c1, c1e, c2]
      · have c2e : t.ai_analysis.isEmpty = false := by
          cases hx : t.ai_analysis with
          | nil => rw [hx] at c2; simp at c2
          | cons x xs => simp
        by_cases c3 : t.generate.length < 2
        · simp [c1, c1e, c2, c2e, c3]
        · have c3e : t.generate.isEmpty = false := by
            cases hx : t.generate with
            | nil => rw [hx] at c3; simp at c3
            | cons x xs => simp
          by_cases c4 : t.upload.length < 2
          · simp [c1, c1e, c2, c2e, c3, c3e, c4]
          · have c4e : t.upload.isEmpty = false := by
              cases hx : t.upload with
              | nil => rw [hx] at c4; simp at c4
              | cons x xs => simp
            simp [c1, c1e, c2, c2e, c3, c3e, c4, c4e]

/-- Witness for C4 at concrete stage logs (2/2/0/0 lines). -/
theorem failure_attribution_witness :
    failedStage ⟨["a1", "a2"], ["b1", "b2"], [], []⟩ = some "generate"
    ∧ (handleWorkflowFailure ⟨["a1", "a2"], ["b1", "b2"], [], []⟩
        "generation blew up" ["analyze", "ai_analysis", "generate"]).2
      = [("generate", "error")] := by
  have h := failure_attribution ⟨["a1", "a2"], ["b1", "b2"], [], []⟩
    "generation blew up" ["analyze", "ai_analysis", "generate"]
    (by decide) (by decide) rfl
  exact ⟨h.1, h.2.1⟩

theorem lookupQueue_map_send (id msg : String) : ∀ r : LogRegistry,
    lookupQueue (r.map (fun p => if p.1 = id then (p.1, p.2 ++ [msg]) else p)) id
      = (lookupQueue r id).map (fun q => q ++ [msg]) := by
  intro r
  induction r with
  | nil => rfl
  | cons p rest ih =>
    by_cases hp : p.1 = id
    · simp [lookupQueue, List.find?, hp]
    · simpa [lookupQueue, List.find?, hp] using ih

theorem lookupQueue_send_log (id msg : String) (r : LogRegistry) :
    lookupQueue (send_log id msg r) id = (lookupQueue r id).map (fun q => q ++ [msg]) := by
  unfold send_log
  by_cases h : (lookupQueue r id).isSome
  · rw [if_pos h, lookupQueue_map_send]
  · rw [if_neg h]
    rw [Option.not_isSome_iff_eq_none] at h
    rw [h]
    rfl

theorem lookupQueue_publishAll (id : String) (lines : List String) (r : LogRegistry) :
    lookupQueue (publishAll id lines r) id = (lookupQueue r id).map (fun q => q ++ lines) := by
  induction lines generalizing r with
  | nil =>
    simp only [publishAll, List.foldl_nil]
    cases lookupQueue r id <;> simp
  | cons l ls ih =>
    simp only [publishAll, List.foldl_cons] at ih ⊢
    rw [ih, lookupQueue_send_log]
    cases lookupQueue r id <;> simp

theorem lookupQueue_register_absent (id : String) (r : LogRegistry)
    (h : lookupQueue r id = none) :
    lookupQueue (register_deployment id r) id = some [] := by
  unfold register_deployment
  rw [h]
  simp [lookupQueue, List.find?]

theorem streamLoop_lines (lines : List String)
    (h : streamCompleteSentinel ∉ lines) :
    streamLoop ((lines ++ [streamCompleteSentinel]).map StreamItem.line) 0
      = lines.map SseEvent.logLine ++ [SseEvent.complete] := by
  induction lines with
  | nil => simp [streamLoop]
  | cons l ls ih =>
    have hl : l ≠ streamCompleteSentinel := by
      intro he
      exact h (by rw [he]; exact List.mem_cons_self _ _)
    have hls : streamCompleteSentinel ∉ ls := fun hm => h (List.mem_cons_of_mem _ hm)
    simp only [List.cons_append, List.map_cons, streamLoop, if_neg hl]
    exact congrArg (fun x => SseEvent.logLine l :: x) (ih hls)

/-- C3 counterexample: the completion sentinel is the in-band string
`"__STREAM_COMPLETE__"`.  Publishing that string as an ordinary log line
(N = 1, line_1 = `"__STREAM_COMPLETE__"`) makes the subscriber receive NO
log event — the line is dropped and the stream completes — contradicting
the claim that line_1 … line_N are always delivered before the completion
signal. -/
theorem fifo_sentinel_counterexample :
    lookupQueue
        (send_completion "op-1"
          (publishAll "op-1" ["__STREAM_COMPLETE__"] (register_deployment "op-1" []))) "op-1"
      = some ["__STREAM_COMPLETE__", "__STREAM_COMPLETE__"]
    ∧ (log_stream_generator
        (send_completion "op-1"
          (publishAll "op-1" ["__STREAM_COMPLETE__"] (register_deployment "op-1" [])))
        "op-1"
        ([StreamItem.line "__STREAM_COMPLETE__", StreamItem.line "__STREAM_COMPLETE__"])).1
      = [SseEvent.connected, SseEvent.complete] :=
  ⟨rfl, rfl⟩

/-- C3 (amended: provided no published line equals the in-band sentinel
string `"__STREAM_COMPLETE__"`): after registering, publishing
line_1 … line_N and completing, the queue holds exactly the N lines
followed by the sentinel, and the subscriber draining that queue receives,
after the connection event, exactly line_1 … line_N in publication order
followed by the completion event — nothing duplicated or dropped. -/
theorem fifo_delivery (id : String) (lines : List String) (r : LogRegistry)
    (h0 : lookupQueue r id = none)
    (hs : streamCompleteSentinel ∉ lines) :
    lookupQueue (send_completion id (publishAll id lines (register_deployment id r))) id
      = some (lines ++ [streamCompleteSentinel])
    ∧ (log_stream_generator
        (send_completion id (publishAll id lines (register_deployment id r))) id
        ((lines ++ [streamCompleteSentinel]).map StreamItem.line)).1
      = SseEvent.connected :: (lines.map SseEvent.logLine ++ [SseEvent.complete]) := by
  have hq : lookupQueue (send_completion id (publishAll id lines (register_deployment id r))) id
      = some (lines ++ [streamCompleteSentinel]) := by
    unfold send_completion
    rw [lookupQueue_send_log, lookupQueue_publishAll, lookupQueue_register_absent id r h0]
    simp
  refine ⟨hq, ?_⟩
  unfold log_stream_generator
  rw [hq]
  simp only [Option.isSome_some, if_pos]
  rw [streamLoop_lines lines hs]

/-- Witness for C3 at a concrete three-line publication. -/
theorem fifo_delivery_witness :
    lookupQueue
        (send_completion "op-2"
          (publishAll "op-2" ["l1", "l2", "l3"] (register_deployment "op-2" []))) "op-2"
      = some (["l1", "l2", "l3"] ++ [streamCompleteSentinel])
    ∧ (log_stream_generator
        (send_completion "op-2"
          (publishAll "op-2" ["l1", "l2", "l3"] (register_deployment "op-2" [])))
        "op-2"
        ((["l1", "l2", "l3"] ++ [streamCompleteSentinel]).map StreamItem.line)).1
      = SseEvent.connected
          :: (["l1", "l2", "l3"].map SseEvent.logLine ++ [SseEvent.complete]) :=
  fifo_delivery "op-2" ["l1", "l2", "l3"] [] rfl (by decide)

theorem lookupQueue_unregister (id : String) (r : LogRegistry) :
    lookupQueue (unregister_deployment id r) id = none := by
  unfold unregister_deployment
  by_cases h : (lookupQueue r id).isSome
  · rw [if_pos h]
    simp only [lookupQueue, Option.map_eq_none']
    rw [List.find?_eq_none]
    intro p hp
    simp only [List.mem_filter] at hp
    simpa using hp.2
  · rw [if_neg h]
    exact Option.not_isSome_iff_eq_none.mp h

theorem not_mem_keys_of_lookup_none (id : String) (r : LogRegistry)
    (h : lookupQueue r id = none) : id ∉ r.map Prod.fst := by
  intro hmem
  obtain ⟨p, hp, hfst⟩ := List.mem_map.mp hmem
  have : (r.find? (fun p => p.1 = id)).isSome := by
    rw [List.find?_isSome]
    exact ⟨p, hp, by simp [hfst]⟩
  rw [show r.find? (fun p => p.1 = id) = none by
        simpa [lookupQueue, Option.map_eq_none'] using h] at this
  simp at this

theorem keys_send_log (id msg : String) (r : LogRegistry) :
    (send_log id msg r).map Prod.fst = r.map Prod.fst := by
  unfold send_log
  by_cases h : (lookupQueue r id).isSome
  · rw [if_pos h, List.map_map]
    congr 1
    funext p
    by_cases hp : p.1 = id
    · simp [hp]
    · simp [hp]
  · rw [if_neg h]

/-- C9: at most one queue per operation id — registering an id that already
has a queue is a no-op returning the registry (and its queue) unchanged,
every registry operation preserves key uniqueness, and the stream consumer
leaves the registry with no queue for its operation id on EVERY exit path
(sentinel, idle timeout, in-loop error, or disconnection — any finite
observation trace), via its `finally` block. -/
theorem registry_cleanup_invariant (id id2 msg : String) (r : LogRegistry)
    (q : List String) (hreg : lookupQueue r id = some q) (hnd : keysNodup r) :
    register_deployment id r = r
    ∧ keysNodup (register_deployment id2 r)
    ∧ keysNodup (send_log id2 msg r)
    ∧ keysNodup (unregister_deployment id2 r)
    ∧ ∀ (r2 : LogRegistry) (id3 : String) (items : List StreamItem),
        lookupQueue (log_stream_generator r2 id3 items).2 id3 = none := by
  refine ⟨?_, ?_, ?_, ?_, ?_⟩
  · unfold register_deployment
    rw [hreg]
    rfl
  · unfold register_deployment
    by_cases h2 : (lookupQueue r id2).isSome
    · rw [if_pos h2]; exact hnd
    · rw [if_neg h2]
      rw [Option.not_isSome_iff_eq_none] at h2
      unfold keysNodup at hnd ⊢
      rw [List.map_cons, List.nodup_cons]
      exact ⟨not_mem_keys_of_lookup_none id2 r h2, hnd⟩
  · unfold keysNodup
    rw [keys_send_log]
    exact hnd
  · unfold unregister_deployment
    by_cases h2 : (lookupQueue r id2).isSome
    · rw [if_pos h2]
      unfold keysNodup at hnd ⊢
      exact hnd.sublist (List.Sublist.map Prod.fst (List.filter_sublist r))
    · rw [if_neg h2]; exact hnd
  · intro r2 id3 items
    unfold log_stream_generator
    by_cases h3 : (lookupQueue r2 id3).isSome
    · rw [if_pos h3]
      exact lookupQueue_unregister id3 r2
    · rw [if_neg h3]
      exact lookupQueue_unregister id3 r2

/-- Witness for C9 at a concrete one-entry registry. -/
theorem registry_cleanup_invariant_witness :
    register_deployment "op-3" [("op-3", ["x"])] = [("op-3", ["x"])]
    ∧ keysNodup (register_deployment "op-4" [("op-3", ["x"])])
    ∧ keysNodup (send_log "op-4" "m" [("op-3", ["x"])])
    ∧ keysNodup (unregister_deployment "op-4" [("op-3", ["x"])])
    ∧ ∀ (r2 : LogRegistry) (id3 : String) (items : List StreamItem),
        lookupQueue (log_stream_generator r2 id3 items).2 id3 = none :=
  registry_cleanup_invariant "op-3" "op-4" "m" [("op-3", ["x"])] ["x"] rfl
    (by simp [keysNodup])

/-- C1 counterexample: for the S3 state manager a missing bucket is NOT
created — `ensure_state_bucket` on an account with no buckets returns the
CloudFormation error and leaves the account's buckets unchanged (empty),
so the first call does not succeed and no bucket is created, contrary to
the claim's "if the bucket is missing on first call, it is created". -/
theorem ensure_backend_counterexample :
    (ensure_state_bucket ⟨"111122223333", [], none, "us-east-1", "sirpi-locks"⟩ "demo").1
      = Except.error ("State bucket sirpi-terraform-states-111122223333 not found. "
          ++ "Please ensure CloudFormation stack was deployed successfully.")
    ∧ (ensure_state_bucket ⟨"111122223333", [], none, "us-east-1", "sirpi-locks"⟩ "demo").2
      = [] :=
  ⟨rfl, rfl⟩

/-- C1 (amended: the creation clause holds for the GCS manager only; the S3
manager treats a missing bucket as an error and never creates one):

For the GCS manager, `ensure_gcs_state_bucket` succeeds with the fixed
per-project bucket name on any non-permission-error path, the bucket exists
afterwards (created when missing), a second sequential call succeeds with
the same bucket and creates nothing, and an `AlreadyExists` raised by the
check/create race is treated as success with no creation by this call.

For the S3 manager, `ensure_state_bucket` succeeds with the same
pre-existing bucket on every call and never mutates the bucket set (so two
sequential calls both succeed with the same bucket and no second bucket is
ever created), while a missing bucket yields the CloudFormation error with
the bucket set unchanged. -/
theorem ensure_backend_amended
    (pid proj : String) (genv : GcsEnv) (rc2 : Bool) (senv : S3Env)
    (hg : genv.firstGet = GetBucketOutcome.fromState
          ∨ genv.firstGet = GetBucketOutcome.forbiddenDisabled)
    (hs : senv.headBucketError = none) :
    (ensure_gcs_state_bucket genv pid).1 = Except.ok ("sirpi-terraform-states-" ++ pid)
    ∧ ("sirpi-terraform-states-" ++ pid) ∈ (ensure_gcs_state_bucket genv pid).2.1
    ∧ ensure_gcs_state_bucket
        ⟨(ensure_gcs_state_bucket genv pid).2.1, GetBucketOutcome.fromState, rc2⟩ pid
      = (Except.ok ("sirpi-terraform-states-" ++ pid),
         (ensure_gcs_state_bucket genv pid).2.1, false)
    ∧ (("sirpi-terraform-states-" ++ pid) ∉ genv.buckets →
        (ensure_gcs_state_bucket genv pid).2.1
          = ("sirpi-terraform-states-" ++ pid) :: genv.buckets)
    ∧ (("sirpi-terraform-states-" ++ pid) ∉ genv.buckets → genv.raceCreate = true →
        (ensure_gcs_state_bucket genv pid).2.2 = false)
    ∧ (("sirpi-terraform-states-" ++ senv.accountId) ∈ senv.buckets →
        ensure_state_bucket senv proj
          = (Except.ok ("sirpi-terraform-states-" ++ senv.accountId), senv.buckets))
    ∧ (("sirpi-terraform-states-" ++ senv.accountId) ∉ senv.buckets →
        ensure_state_bucket senv proj
          = (Except.error ("State bucket " ++ ("sirpi-terraform-states-" ++ senv.accountId)
              ++ " not found. Please ensure CloudFormation stack was deployed successfully."),
             senv.buckets)) := by
  have gcs1 : (ensure_gcs_state_bucket genv pid).1
      = Except.ok ("sirpi-terraform-states-" ++ pid) := by
    rcases hg with h | h <;>
      · unfold ensure_gcs_state_bucket
        rw [h]
        by_cases hb : ("sirpi-terraform-states-" ++ pid) ∈ genv.buckets
        · simp [hb]
        · by_cases hr : genv.raceCreate <;> simp [hb, hr]
  have gcsMem : ("sirpi-terraform-states-" ++ pid) ∈ (ensure_gcs_state_bucket genv pid).2.1 := by
    rcases hg with h | h <;>
      · unfold ensure_gcs_state_bucket
        rw [h]
        by_cases hb : ("sirpi-terraform-states-" ++ pid) ∈ genv.buckets
        · simp [hb]
        · by_cases hr : genv.raceCreate <;> simp [hb, hr]
  have second : ∀ (bs : List String) (rc : Bool),
      ("sirpi-terraform-states-" ++ pid) ∈ bs →
      ensure_gcs_state_bucket ⟨bs, GetBucketOutcome.fromState, rc⟩ pid
        = (Except.ok ("sirpi-terraform-states-" ++ pid), bs, false) := by
    intro bs rc hmem
    unfold ensure_gcs_state_bucket
    simp [hmem]
  refine ⟨gcs1, gcsMem, ?_, ?_, ?_, ?_, ?_⟩
  · exact second _ rc2 gcsMem
  · intro hb
    rcases hg with h | h <;>
      · unfold ensure_gcs_state_bucket
        rw [h]
        by_cases hr : genv.raceCreate <;> simp [hb, hr]
  · intro hb hr
    rcases hg with h | h <;>
      · unfold ensure_gcs_state_bucket
        rw [h]
        simp [hb, hr]
  · intro hb
    unfold ensure_state_bucket
    rw [hs]
    simp [hb]
  · intro hb
    unfold ensure_state_bucket
    rw [hs]
    simp [hb]

/-- Witness for C1 at concrete environments: a GCP project with no buckets
(the bucket gets created) and an AWS account whose CloudFormation bucket
exists. -/
theorem ensure_backend_amended_witness :
    (ensure_gcs_state_bucket ⟨[], GetBucketOutcome.fromState, false⟩ "proj-7").1
      = Except.ok ("sirpi-terraform-states-" ++ "proj-7")
    ∧ ("sirpi-terraform-states-" ++ "proj-7")
        ∈ (ensure_gcs_state_bucket ⟨[], GetBucketOutcome.fromState, false⟩ "proj-7").2.1
    ∧ (("sirpi-terraform-states-" ++ "444455556666")
          ∈ (["sirpi-terraform-states-444455556666"] : List String) →
        ensure_state_bucket
            ⟨"444455556666", ["sirpi-terraform-states-444455556666"], none,
             "us-east-1", "sirpi-locks"⟩ "demo"
          = (Except.ok ("sirpi-terraform-states-" ++ "444455556666"),
             ["sirpi-terraform-states-444455556666"])) := by
  have h := ensure_backend_amended "proj-7" "demo"
    ⟨[], GetBucketOutcome.fromState, false⟩ true
    ⟨"444455556666", ["sirpi-terraform-states-444455556666"], none,
     "us-east-1", "sirpi-locks"⟩
    (Or.inl rfl) rfl
  exact ⟨h.1, h.2.1, h.2.2.2.2.2.1⟩

/-- C5: a plan request whose stored build logs yield no ECR image URI fails
with HTTP 400 "No Docker image found. Please build the image first." and
performs NO side effects at all — in particular the sandbox is never
created, so no Terraform command can run inside it. -/
theorem plan_without_image_no_sandbox (env : DeployEnv)
    (hfiles : env.tfFiles ≠ [])
    (hnouri : extractImageUri env.buildLogs = none) :
    plan_aws_deployment env
      = ([], Except.error (400, "No Docker image found. Please build the image first."))
    ∧ DeployEvent.createSandbox ∉ (plan_aws_deployment env).1
    ∧ DeployEvent.tfInit ∉ (plan_aws_deployment env).1
    ∧ DeployEvent.tfPlan ∉ (plan_aws_deployment env).1 := by
  have hne : env.tfFiles.isEmpty = false := by
    cases h : env.tfFiles with
    | nil => exact absurd h hfiles
    | cons a b => simp
  have hmain : plan_aws_deployment env
      = ([], Except.error (400, "No Docker image found. Please build the image first.")) := by
    unfold plan_aws_deployment
    rw [hne, hnouri]
    simp
  refine ⟨hmain, ?_, ?_, ?_⟩ <;> rw [hmain] <;> simp

/-- Witness for C5 at a concrete environment whose build logs contain no
image URI. -/
theorem plan_without_image_no_sandbox_witness :
    plan_aws_deployment
        ⟨"App", [("main.tf", "resource \"a\" \x7b\x7d")], ["Starting Docker image build...",
          "Error: build failed"], [],
         Except.ok ⟨"A", "S", "T"⟩,
         ⟨"1", [], none, "us-east-1", "sirpi-locks"⟩,
         ⟨0, "", ""⟩, ⟨0, "", ""⟩, ⟨0, "", ""⟩, ⟨0, "", ""⟩, ⟨⟨0, "", ""⟩, none⟩⟩
      = ([], Except.error (400, "No Docker image found. Please build the image first.")) :=
  (plan_without_image_no_sandbox
    ⟨"App", [("main.tf", "resource \"a\" \x7b\x7d")], ["Starting Docker image build...",
      "Error: build failed"], [],
     Except.ok ⟨"A", "S", "T"⟩,
     ⟨"1", [], none, "us-east-1", "sirpi-locks"⟩,
     ⟨0, "", ""⟩, ⟨0, "", ""⟩, ⟨0, "", ""⟩, ⟨0, "", ""⟩, ⟨⟨0, "", ""⟩, none⟩⟩
    (by simp) rfl).1

/-- C7 counterexample: a file whose only backend declaration is
`backend "local" { }` mentions neither `backend "s3"` nor `backend "gcs"`,
so the handlers' guard leaves it completely untouched — the pre-existing
backend block is NOT stripped (second conjunct: the removal regex itself
would have removed it, showing the block is really there). -/
theorem backend_strip_counterexample :
    stripBackend "terraform \x7b\n  backend \"local\" \x7b\x7d\n\x7d\n"
      = "terraform \x7b\n  backend \"local\" \x7b\x7d\n\x7d\n"
    ∧ removeBackendBlocks "terraform \x7b\n  backend \"local\" \x7b\x7d\n\x7d\n"
      = "terraform \x7b\n  \n\x7d\n" :=
  ⟨rfl, rfl⟩

/-- C7 (amended: backend blocks are stripped only from files whose content
mentions `backend "s3"` or `backend "gcs"`; such files have all their
backend declaration blocks removed, other files are written unchanged):

in each of the three handlers (plan, apply, destroy) the uploaded `.tf`
files are written through the `stripBackend` guard, after which the state
backend manager's generated configuration is written as `backend.tf`, and
`terraform init` only ever appears after those writes in the event trace. -/
theorem backend_replacement_amended (env : DeployEnv) (c : AwsCredentials) (cfg u : String)
    (hcred : env.credsResult = Except.ok c)
    (hcfg : configure_backend env.s3 env.projectName = Except.ok cfg)
    (hfiles : env.tfFiles ≠ [])
    (huri : extractImageUri env.buildLogs = some u) :
    (∀ content : String,
        containsSub "backend \"s3\"" content = false →
        containsSub "backend \"gcs\"" content = false →
        stripBackend content = content)
    ∧ (∀ content : String,
        (containsSub "backend \"s3\"" content || containsSub "backend \"gcs\"" content) = true →
        stripBackend content = removeBackendBlocks content)
    ∧ (∃ rest, (plan_aws_deployment env).1
        = [DeployEvent.registerSse, DeployEvent.createSandbox]
          ++ configureCredsEvents c env.s3.region
          ++ [DeployEvent.runCommand ("mkdir -p " ++ tfDir)]
          ++ writeTfFileEvents env.tfFiles
          ++ [DeployEvent.writeFile (tfDir ++ "/backend.tf") cfg,
              DeployEvent.writeFile (tfDir ++ "/terraform.tfvars")
                (tfvarsContent u env.projectName.toLower
                  ("sirpi/" ++ env.projectName.toLower) env.envVars),
              DeployEvent.tfInit]
          ++ rest)
    ∧ (∃ rest, (apply_aws_deployment env).1
        = [DeployEvent.registerSse, DeployEvent.createSandbox]
          ++ configureCredsEvents c env.s3.region
          ++ [DeployEvent.runCommand ("mkdir -p " ++ tfDir)]
          ++ writeTfFileEvents env.tfFiles
          ++ [DeployEvent.writeFile (tfDir ++ "/backend.tf") cfg,
              DeployEvent.writeFile (tfDir ++ "/terraform.tfvars")
                (tfvarsContent u env.projectName.toLower
                  ("sirpi/" ++ env.projectName.toLower) env.envVars),
              DeployEvent.tfInit]
          ++ rest)
    ∧ (∃ rest, (destroy_aws_deployment env).1
        = [DeployEvent.registerSse, DeployEvent.createSandbox]
          ++ configureCredsEvents c env.s3.region
          ++ [DeployEvent.runCommand ("mkdir -p " ++ tfDir)]
          ++ writeTfFileEvents env.tfFiles
          ++ [DeployEvent.writeFile (tfDir ++ "/backend.tf") cfg,
              DeployEvent.writeFile (tfDir ++ "/terraform.tfvars")
                (tfvarsContent u env.projectName.toLower
                  ("sirpi/" ++ env.projectName.toLower) env.envVars),
              DeployEvent.tfInit]
          ++ rest) := by
  have hne : env.tfFiles.isEmpty = false := by
    cases h : env.tfFiles with
    | nil => exact absurd h hfiles
    | cons a b => simp
  have shape : ∀ ustr : String,
      (env.initResult.exit_code = 0 ∧ sandboxPrefix env ustr
        = Except.ok
            ([DeployEvent.registerSse, DeployEvent.createSandbox]
              ++ configureCredsEvents c env.s3.region
              ++ [DeployEvent.runCommand ("mkdir -p " ++ tfDir)]
              ++ writeTfFileEvents env.tfFiles
              ++ [DeployEvent.writeFile (tfDir ++ "/backend.tf") cfg,
                  DeployEvent.writeFile (tfDir ++ "/terraform.tfvars")
                    (tfvarsContent ustr env.projectName.toLower
                      ("sirpi/" ++ env.projectName.toLower) env.envVars),
                  DeployEvent.tfInit]))
      ∨ (env.initResult.exit_code ≠ 0 ∧ sandboxPrefix env ustr
        = Except.error
            ([DeployEvent.registerSse, DeployEvent.createSandbox]
              ++ configureCredsEvents c env.s3.region
              ++ [DeployEvent.runCommand ("mkdir -p " ++ tfDir)]
              ++ writeTfFileEvents env.tfFiles
              ++ [DeployEvent.writeFile (tfDir ++ "/backend.tf") cfg,
                  DeployEvent.writeFile (tfDir ++ "/terraform.tfvars")
                    (tfvarsContent ustr env.projectName.toLower
                      ("sirpi/" ++ env.projectName.toLower) env.envVars),
                  DeployEvent.tfInit],
             "Terraform init failed: " ++ env.initResult.stderr)) := by
    intro ustr
    by_cases hi : env.initResult.exit_code = 0
    · left
      refine ⟨hi, ?_⟩
      unfold sandboxPrefix
      rw [hcred, hcfg]
      simp [hi, List.append_assoc]
    · right
      refine ⟨hi, ?_⟩
      unfold sandboxPrefix
      rw [hcred, hcfg]
      simp [hi, List.append_assoc]
  refine ⟨?_, ?_, ?_, ?_, ?_⟩
  · intro content h1 h2
    unfold stripBackend
    rw [h1, h2]
    rfl
  · intro content h12
    unfold stripBackend
    rw [h12]
    rfl
  · rcases shape u with ⟨hi, hsp⟩ | ⟨hi, hsp⟩
    · by_cases hp : env.planResult.exit_code = 0
      · exact ⟨[DeployEvent.tfPlan, DeployEvent.saveLogs "plan" "success",
          DeployEvent.updateProjectStatus "plan_generated", DeployEvent.sendCompletion],
          by unfold plan_aws_deployment; simp [hne, huri, hsp, hp, List.append_assoc]⟩
      · exact ⟨[DeployEvent.tfPlan, DeployEvent.saveLogs "plan" "failed",
          DeployEvent.sendCompletion],
          by unfold plan_aws_deployment
             simp [hne, huri, hsp, hp, failTail, List.append_assoc]⟩
    · exact ⟨[DeployEvent.saveLogs "plan" "failed", DeployEvent.sendCompletion],
        by unfold plan_aws_deployment; simp [hne, huri, hsp, failTail, List.append_assoc]⟩
  · rcases shape u with ⟨hi, hsp⟩ | ⟨hi, hsp⟩
    · by_cases hp : env.applyResult.exit_code = 0
      · exact ⟨[DeployEvent.tfApply, DeployEvent.saveLogs "apply" "success",
          DeployEvent.updateProjectStatus "deployed", DeployEvent.sendCompletion],
          by unfold apply_aws_deployment
             simp [huri, pyStr, hsp, hp, List.append_assoc]⟩
      · exact ⟨[DeployEvent.tfApply, DeployEvent.saveLogs "apply" "failed",
          DeployEvent.sendCompletion],
          by unfold apply_aws_deployment
             simp [huri, pyStr, hsp, hp, failTail, List.append_assoc]⟩
    · exact ⟨[DeployEvent.saveLogs "apply" "failed", DeployEvent.sendCompletion],
        by unfold apply_aws_deployment
           simp [huri, pyStr, hsp, failTail, List.append_assoc]⟩
  · rcases shape u with ⟨hi, hsp⟩ | ⟨hi, hsp⟩
    · by_cases hp : env.destroyResult.exit_code = 0
      · exact ⟨[DeployEvent.tfDestroy, DeployEvent.cleanupState,
          DeployEvent.saveLogs "destroy" "success",
          DeployEvent.updateProjectStatus "destroyed", DeployEvent.clearProjectOutputs,
          DeployEvent.sendCompletion],
          by unfold destroy_aws_deployment
             simp [huri, hsp, hp, List.append_assoc]⟩
      · exact ⟨[DeployEvent.tfDestroy, DeployEvent.saveLogs "destroy" "failed",
          DeployEvent.sendCompletion],
          by unfold destroy_aws_deployment
             simp [huri, hsp, hp, failTail, List.append_assoc]⟩
    · exact ⟨[DeployEvent.saveLogs "destroy" "failed", DeployEvent.sendCompletion],
        by unfold destroy_aws_deployment
           simp [huri, hsp, failTail, List.append_assoc]⟩

/-- Witness for C7: a file without s3/gcs backend mentions is written
unchanged, applied through the theorem at a concrete deployment
environment. -/
theorem backend_replacement_amended_witness :
    stripBackend "resource \"aws_ecs_service\" \"app\" \x7b\x7d"
      = "resource \"aws_ecs_service\" \"app\" \x7b\x7d" :=
  (backend_replacement_amended
    ⟨"App", [("main.tf", "terraform \x7b backend \"s3\" \x7b bucket = \"old\" \x7d \x7d")],
     ["pushed 9.dkr.ecr.us-east-1.amazonaws.com/a:b"], [],
     Except.ok ⟨"A", "S", "T"⟩,
     ⟨"444455556666", ["sirpi-terraform-states-444455556666"], none, "us-east-1", "sirpi-locks"⟩,
     ⟨0, "", ""⟩, ⟨0, "", ""⟩, ⟨0, "", ""⟩, ⟨0, "", ""⟩, ⟨⟨0, "", ""⟩, none⟩⟩
    ⟨"A", "S", "T"⟩
    ("terraform \x7b\n  backend \"s3\" \x7b\n    bucket         = \"sirpi-terraform-states-444455556666\"\n    key            = \"projects/App/terraform.tfstate\"\n    region         = \"us-east-1\"\n    dynamodb_table = \"sirpi-locks\"\n    encrypt        = true\n  \x7d\n\x7d\n")
    "9.dkr.ecr.us-east-1.amazonaws.com/a:b"
    rfl rfl (by simp) rfl).1
    "resource \"aws_ecs_service\" \"app\" \x7b\x7d" rfl rfl

/-- When the workflow state comes back FAILED, `execute` raises, and the
`except` block saves analyze / ai_analysis / generate with error status and
records the failure — no upload-related effect appears in the trace. -/
theorem execute_failed_events (env : WorkflowEnv) (url provider owner repo : String)
    (dc : Nat) (hp : Bool)
    (hw : (run_workflow env url provider).status = "FAILED") :
    (execute env url provider owner repo dc hp).events
      = [ExecEvent.saveStage "analyze" "error", ExecEvent.saveStage "ai_analysis" "error",
         ExecEvent.saveStage "generate" "error", ExecEvent.updateGeneration "FAILED"]
        ++ (if hp then [ExecEvent.updateProject "failed"] else []) := by
  unfold execute
  rw [if_pos hw]
  simp [handleWorkflowFailure, failedStage, appendToStage, deadLoopSaves_eq_nil]

/-- C2: the two generation tasks are joined as a barrier — if either fails,
the workflow comes back FAILED, the upload stage never executes (no file is
uploaded and the upload stage is never saved), and whenever the workflow
reaches the upload stage both artifacts are present and the uploaded set is
exactly the Dockerfile plus every generated Terraform file — never a
partial artifact set. -/
theorem generation_join_gates_upload (env : WorkflowEnv)
    (url provider owner repo : String) (dc : Nat) (hpid : Bool)
    (hfail : (∃ e, env.generateDockerfile = Except.error e)
             ∨ (∃ e, env.generateTerraform = Except.error e)) :
    (∀ p, ExecEvent.uploadFile p ∉ (execute env url provider owner repo dc hpid).events)
    ∧ (∀ st, ExecEvent.saveStage "upload" st
        ∉ (execute env url provider owner repo dc hpid).events)
    ∧ (∀ (env2 : WorkflowEnv) (u pv o rp : String) (dc2 : Nat) (hp2 : Bool),
        (run_workflow env2 u pv).status = "SUCCESS" →
          (run_workflow env2 u pv).generated_dockerfile.isSome = true
          ∧ (run_workflow env2 u pv).generated_terraform.isSome = true
          ∧ (execute env2 u pv o rp dc2 hp2).events.filter isUploadEvent
              = (filesToUpload (run_workflow env2 u pv)).map
                  (fun f => ExecEvent.uploadFile (o ++ "/" ++ rp ++ "/" ++ f.1))) := by
  have hw : (run_workflow env url provider).status = "FAILED" := by
    unfold run_workflow
    cases hf : env.fetchRepo with
    | error e => simp
    | ok raw =>
      cases ha : env.analyze with
      | error e => simp
      | ok ar =>
        have hg : ∃ e, gatherTwo env.generateDockerfile env.generateTerraform
            = Except.error e := by
          rcases hfail with ⟨e, he⟩ | ⟨e, he⟩
          · cases hgt : env.generateTerraform with
            | error e2 => exact ⟨e, by simp [gatherTwo, he, hgt]⟩
            | ok y => exact ⟨e, by simp [gatherTwo, he, hgt]⟩
          · cases hga : env.generateDockerfile with
            | error e2 => exact ⟨e2, by simp [gatherTwo, hga, he]⟩
            | ok x => exact ⟨e, by simp [gatherTwo, hga, he]⟩
        obtain ⟨e, hg⟩ := hg
        simp [hg]
  have hev := execute_failed_events env url provider owner repo dc hpid hw
  refine ⟨?_, ?_, ?_⟩
  · intro p
    rw [hev]
    cases hpid <;> simp
  · intro st
    rw [hev]
    cases hpid <;> simp
  · intro env2 u pv o rp dc2 hp2 hsucc
    cases hf : env2.fetchRepo with
    | error e => rw [run_workflow, hf] at hsucc; simp at hsucc
    | ok raw =>
      cases ha : env2.analyze with
      | error e => rw [run_workflow, hf, ha] at hsucc; simp at hsucc
      | ok ar =>
        cases hg : gatherTwo env2.generateDockerfile env2.generateTerraform with
        | error e => rw [run_workflow, hf, ha, hg] at hsucc; simp at hsucc
        | ok dt =>
          have hrw : run_workflow env2 u pv
              = { github_repo_url := u, local_repo_path := "", cloud_provider := pv,
                  status := "SUCCESS", error := none, analysis_result := some ar,
                  generated_dockerfile := some dt.1, generated_terraform := some dt.2 } := by
            rw [run_workflow, hf, ha, hg]
          refine ⟨?_, ?_, ?_⟩
          · rw [hrw]; rfl
          · rw [hrw]; rfl
          · unfold execute
            rw [hrw]
            simp only [List.filter_append, List.filter_cons, List.filter_nil]
            cases hp2 <;>
              simp [isUploadEvent, List.filter_map, Function.comp_def, filesToUpload]

/-- Witness for C2 at a concrete environment whose Terraform generator
fails: the Dockerfile is never uploaded. -/
theorem generation_join_gates_upload_witness :
    ExecEvent.uploadFile "o/r/Dockerfile"
      ∉ (execute
          ⟨Except.ok ⟨3, 1, some "Python"⟩,
           Except.ok ⟨"Python", some "FastAPI", none, 8000, [], []⟩,
           Except.ok "FROM python:3.12-slim",
           Except.error "terraform generation failed"⟩
          "https://github.com/o/r" "gcp" "o" "r" 0 false).events :=
  (generation_join_gates_upload
    ⟨Except.ok ⟨3, 1, some "Python"⟩,
     Except.ok ⟨"Python", some "FastAPI", none, 8000, [], []⟩,
     Except.ok "FROM python:3.12-slim",
     Except.error "terraform generation failed"⟩
    "https://github.com/o/r" "gcp" "o" "r" 0 false
    (Or.inr ⟨"terraform generation failed", rfl⟩)).1 "o/r/Dockerfile"

end Sirpi
